import Mathlib

/-!
Shallow embedding of `employee_salary_prediction_T/app.py` (Streamlit serving
component of the employee-salary-predictor repository).

Money amounts are modelled as exact rationals (ℚ).  The Python source works
with floats, but every value a claim evaluates is exactly representable, so
the rational model agrees with the source on all inputs considered here.
-/

namespace SalaryApp

/-- One entry of the `COUNTRY_CURRENCIES` dictionary in `app.py`:
currency symbol, currency name, and exchange rate relative to USD. -/
structure CurrencyInfo where
  symbol : String
  name : String
  rate : ℚ
deriving DecidableEq, Repr

/-- `USD_TO_INR_RATE = 83.5` (app.py line 28). -/
def USD_TO_INR_RATE : ℚ := 83.5

/-- `USD_TO_EUR_RATE = 0.92` (app.py line 29). -/
def USD_TO_EUR_RATE : ℚ := 0.92

/-- `USD_TO_GBP_RATE = 0.79` (app.py line 30). -/
def USD_TO_GBP_RATE : ℚ := 0.79

/-- `USD_TO_CAD_RATE = 1.37` (app.py line 31). -/
def USD_TO_CAD_RATE : ℚ := 1.37

/-- `USD_TO_AUD_RATE = 1.50` (app.py line 32). -/
def USD_TO_AUD_RATE : ℚ := 1.50

/-- `USD_TO_JPY_RATE = 157.0` (app.py line 33). -/
def USD_TO_JPY_RATE : ℚ := 157.0

/-- `USD_TO_CHF_RATE = 0.89` (app.py line 34). -/
def USD_TO_CHF_RATE : ℚ := 0.89

/-- The `COUNTRY_CURRENCIES` dictionary of `app.py` (lines 37-87), embedded
as an association list in source order.  Keys are distinct, so `List.lookup`
matches Python's `dict` lookup. -/
def COUNTRY_CURRENCIES : List (String × CurrencyInfo) :=
  [ ("US", ⟨"$", "USD", 1.0⟩),
    ("GB", ⟨"£", "GBP", USD_TO_GBP_RATE⟩),
    ("CA", ⟨"C$", "CAD", USD_TO_CAD_RATE⟩),
    ("DE", ⟨"€", "EUR", USD_TO_EUR_RATE⟩),
    ("IN", ⟨"₹", "INR", USD_TO_INR_RATE⟩),
    ("FR", ⟨"€", "EUR", USD_TO_EUR_RATE⟩),
    ("ES", ⟨"€", "EUR", USD_TO_EUR_RATE⟩),
    ("AU", ⟨"A$", "AUD", USD_TO_AUD_RATE⟩),
    ("BR", ⟨"R$", "BRL", 5.40⟩),
    ("NL", ⟨"€", "EUR", USD_TO_EUR_RATE⟩),
    ("JP", ⟨"¥", "JPY", USD_TO_JPY_RATE⟩),
    ("CH", ⟨"CHF", "CHF", USD_TO_CHF_RATE⟩),
    ("IT", ⟨"€", "EUR", USD_TO_EUR_RATE⟩),
    ("PL", ⟨"zł", "PLN", 4.05⟩),
    ("PT", ⟨"€", "EUR", USD_TO_EUR_RATE⟩),
    ("MX", ⟨"$", "MXN", 18.0⟩),
    ("DK", ⟨"kr", "DKK", 6.90⟩),
    ("GR", ⟨"€", "EUR", USD_TO_EUR_RATE⟩),
    ("TR", ⟨"₺", "TRY", 32.5⟩),
    ("AT", ⟨"€", "EUR", USD_TO_EUR_RATE⟩),
    ("BE", ⟨"€", "EUR", USD_TO_EUR_RATE⟩),
    ("IE", ⟨"€", "EUR", USD_TO_EUR_RATE⟩),
    ("LU", ⟨"€", "EUR", USD_TO_EUR_RATE⟩),
    ("NG", ⟨"₦", "NGN", 1500.0⟩),
    ("PK", ⟨"₨", "PKR", 278.0⟩),
    ("RU", ⟨"₽", "RUB", 87.0⟩),
    ("SG", ⟨"S$", "SGD", 1.35⟩),
    ("UA", ⟨"₴", "UAH", 40.0⟩),
    ("AE", ⟨"د.إ", "AED", 3.67⟩),
    ("CL", ⟨"CLP", "CLP", 930.0⟩),
    ("CO", ⟨"$", "COP", 4000.0⟩),
    ("CY", ⟨"€", "EUR", USD_TO_EUR_RATE⟩),
    ("CZ", ⟨"Kč", "CZK", 23.0⟩),
    ("EE", ⟨"€", "EUR", USD_TO_EUR_RATE⟩),
    ("FI", ⟨"€", "EUR", USD_TO_EUR_RATE⟩),
    ("GH", ⟨"₵", "GHS", 15.0⟩),
    ("HR", ⟨"€", "EUR", USD_TO_EUR_RATE⟩),
    ("HU", ⟨"Ft", "HUF", 360.0⟩),
    ("IR", ⟨"﷼", "IRR", 42000.0⟩),
    ("MT", ⟨"€", "EUR", USD_TO_EUR_RATE⟩),
    ("NZ", ⟨"NZ$", "NZD", 1.63⟩),
    ("PH", ⟨"₱", "PHP", 58.0⟩),
    ("PR", ⟨"$", "USD", 1.0⟩),
    ("RO", ⟨"lei", "RON", 4.60⟩),
    ("SI", ⟨"€", "EUR", USD_TO_EUR_RATE⟩),
    ("SK", ⟨"€", "EUR", USD_TO_EUR_RATE⟩),
    ("TH", ⟨"฿", "THB", 36.0⟩),
    ("VN", ⟨"₫", "VND", 25400.0⟩) ]

/-- The default returned by the dictionary lookup when a code is absent:
`{"symbol": "$", "name": "USD", "rate": 1.0}` (app.py line 387). -/
def defaultCurrency : CurrencyInfo := ⟨"$", "USD", 1.0⟩

/-- `COUNTRY_CURRENCIES.get(company_location, {"symbol": "$", "name": "USD",
"rate": 1.0})` (app.py line 387). -/
def lookupCurrency (company_location : String) : CurrencyInfo :=
  (COUNTRY_CURRENCIES.lookup company_location).getD defaultCurrency

/-- `predicted_salary_local = predicted_salary_usd * local_currency_info["rate"]`
(app.py line 388). -/
def predictedSalaryLocal (predicted_salary_usd : ℚ) (company_location : String) : ℚ :=
  predicted_salary_usd * (lookupCurrency company_location).rate

/-!  Python's `:,.2f` format: round to two decimal places (ties to even, as
CPython's correctly-rounded float formatting does) and insert a thousands
separator every three digits of the integer part. -/

/-- Round a rational to the nearest integer, ties to even. -/
def roundHalfEven (q : ℚ) : ℤ :=
  if q - ⌊q⌋ = 1 / 2 then (if ⌊q⌋ % 2 = 0 then ⌊q⌋ else ⌊q⌋ + 1) else round q

/-- Insert a comma before the digit at every reversed index that is a
nonzero multiple of three (helper for thousands grouping; input is the
digit list least-significant first). -/
def commasRev (cs : List Char) : List Char :=
  cs.enum.flatMap (fun p => if p.1 ≠ 0 ∧ p.1 % 3 = 0 then [',', p.2] else [p.2])

/-- Group the decimal digits of a numeral string in threes with commas,
as Python's `,` format flag does for the integer part. -/
def insertThousands (s : String) : String :=
  ⟨(commasRev s.toList.reverse).reverse⟩

/-- Python `f"{q:,.2f}"` on an exact rational: two decimal places and
thousands separators in the integer part. -/
def formatCommas2 (q : ℚ) : String :=
  let cents : ℤ := roundHalfEven (q * 100)
  let n : ℕ := cents.natAbs
  let sign : String := if cents < 0 then "-" else ""
  let fracPad : String := if n % 100 < 10 then "0" else ""
  sign ++ insertThousands (toString (n / 100)) ++ "." ++ fracPad ++ toString (n % 100)

/-- One `<br>`-separated currency line of the rendered output: symbol,
formatted amount, currency name (app.py lines 392-395 each append one). -/
structure CurrencyLine where
  symbol : String
  amountStr : String
  name : String
deriving DecidableEq, Repr

/-- The USD line `f"${predicted_salary_usd:,.2f} (USD)"` (app.py line 392). -/
def usdLine (predicted_salary_usd : ℚ) : CurrencyLine :=
  ⟨"$", formatCommas2 predicted_salary_usd, "USD"⟩

/-- The INR line `f"₹{predicted_salary_usd * USD_TO_INR_RATE:,.2f} (INR)"`,
always appended (app.py line 393). -/
def inrLine (predicted_salary_usd : ℚ) : CurrencyLine :=
  ⟨"₹", formatCommas2 (predicted_salary_usd * USD_TO_INR_RATE), "INR"⟩

/-- The currency lines of `output_string` (app.py lines 392-395): USD line,
then INR line, then the local-currency line unless the local currency's name
is "USD" or "INR". -/
def currencyLines (predicted_salary_usd : ℚ) (company_location : String) :
    List CurrencyLine :=
  let local_currency_info := lookupCurrency company_location
  let base := [usdLine predicted_salary_usd, inrLine predicted_salary_usd]
  if local_currency_info.name ≠ "USD" ∧ local_currency_info.name ≠ "INR" then
    base ++ [⟨local_currency_info.symbol,
             formatCommas2 (predictedSalaryLocal predicted_salary_usd company_location),
             local_currency_info.name⟩]
  else base

/-- Render one currency line as the HTML fragment appended to
`output_string` (app.py lines 392-395). -/
def renderCurrencyLine (l : CurrencyLine) : String :=
  "<br>" ++ l.symbol ++ l.amountStr ++ "<span class=\"currency-text\"> (" ++ l.name ++ ")</span>"

end SalaryApp

namespace SalaryApp

/-- A cell of the single-row pandas DataFrame: the form supplies strings
and integers. -/
inductive CellValue
  | str (s : String)
  | int (n : ℤ)
deriving DecidableEq, Repr

/-- `pd.DataFrame([[...]], columns=[...])` (app.py lines 378-379):
column names plus rows of cells. -/
structure DataFrame where
  columns : List String
  rows : List (List CellValue)
deriving DecidableEq, Repr

/-- The state of the form widgets at submission time (app.py lines 290-355).
`remote_ratio_pct` embeds the slider named `remote_ratio` in the source. -/
structure FormState where
  employee_name : String
  experience_level : String
  job_title : String
  company_location : String
  remote_ratio_pct : ℤ
  work_year : ℤ
deriving DecidableEq, Repr

/-- `input_data = pd.DataFrame([[experience_level, job_title,
company_location, remote_ratio, work_year]], columns=['experience_level',
'job_title', 'company_location', 'remote_ratio', 'work_year'])`
(app.py lines 378-379). -/
def inputData (fs : FormState) : DataFrame :=
  ⟨["experience_level", "job_title", "company_location", "remote_ratio", "work_year"],
   [[.str fs.experience_level, .str fs.job_title, .str fs.company_location,
     .int fs.remote_ratio_pct, .int fs.work_year]]⟩

/-- The pipeline artifact, seen by the serving side as an opaque predict
operation from a feature table to a vector of predictions. -/
def Pipeline : Type := DataFrame → List ℚ

/-- Side effects of the submission handler we track: the artificial delay
(`time.sleep`, seconds) and the call to `model_pipeline.predict`. -/
inductive Event
  | sleep (seconds : ℤ)
  | predictCall (df : DataFrame)
deriving DecidableEq, Repr

/-- What the handler displays at the end of a submission. -/
inductive SubmitOutcome
  | warning (msg : String)
  | predicted (employee_name : String) (salary_usd : ℚ) (lines : List CurrencyLine)
  | failed (msg : String)
deriving DecidableEq, Repr

/-- The `st.button("Predict Salary")` handler (app.py lines 370-413):
warn and skip prediction on an empty employee name; otherwise build the
single-row feature table, sleep one second, call predict, take element 0,
and render the currency lines.  Returns the outcome together with the
ordered trace of tracked side effects. -/
def handleSubmission (model_pipeline : Pipeline) (fs : FormState) :
    SubmitOutcome × List Event :=
  if fs.employee_name = "" then
    (.warning "Please enter the Employee Name.", [])
  else
    let input_data := inputData fs
    match (model_pipeline input_data).head? with
    | none => (.failed "An error occurred during prediction", [.sleep 1, .predictCall input_data])
    | some predicted_salary_usd =>
        (.predicted fs.employee_name predicted_salary_usd
           (currencyLines predicted_salary_usd fs.company_location),
         [.sleep 1, .predictCall input_data])

/-- What `joblib.load('salary_prediction_model.pkl')` can do at startup
(app.py lines 13-22): succeed, raise FileNotFoundError, or raise any other
exception. -/
inductive LoadResult
  | ok (model_pipeline : Pipeline)
  | fileNotFound
  | loadError (e : String)

/-- Outcome of the startup block (app.py lines 13-22): either the app keeps
running with the loaded pipeline (after `st.success`), or `st.error` is shown
and `st.stop()` halts the script. -/
inductive StartupOutcome
  | running (model_pipeline : Pipeline) (banner : String)
  | halted (errMsg : String)

/-- The try/except around `joblib.load` (app.py lines 13-22). -/
def startup : LoadResult → StartupOutcome
  | .ok model_pipeline => .running model_pipeline "Machine Learning model loaded successfully!"
  | .fileNotFound => .halted ("Error: Model file 'salary_prediction_model.pkl' not found. " ++
      "Please ensure your trained model is saved and accessible in the same directory.")
  | .loadError e => .halted ("Error loading the model: " ++ e)

/-- The list literal passed to `sorted(...)` for the company-location
select widget (app.py lines 306-311), in source order. -/
def company_location_options_raw : List String :=
  [ "US", "GB", "CA", "DE", "IN", "FR", "ES", "AU", "BR", "NL", "JP", "CH",
    "IT", "PL", "PT", "MX", "DK", "GR", "TR", "AT", "BE", "IE", "LU", "NG",
    "PK", "RU", "SG", "UA", "AE", "CL", "CO", "CY", "CZ", "EE", "FI", "GH",
    "HR", "HU", "IR", "MT", "NZ", "PH", "PR", "RO", "SI", "SK", "TH", "VN" ]

/-- `company_location_options = sorted([...])` (app.py lines 306-311), the
country codes offered by the company-location select widget. -/
def company_location_options : List String :=
  company_location_options_raw.mergeSort (fun a b => a ≤ b)

end SalaryApp

namespace SalaryApp

/-! ### Helper lemmas -/

/-- Evaluating the table lookup at country code "US". -/
theorem lookupCurrency_US : lookupCurrency "US" = ⟨"$", "USD", 1.0⟩ := rfl

/-- Evaluating the table lookup at country code "IN". -/
theorem lookupCurrency_IN : lookupCurrency "IN" = ⟨"₹", "INR", USD_TO_INR_RATE⟩ := rfl

/-- Evaluating the table lookup at country code "PR". -/
theorem lookupCurrency_PR : lookupCurrency "PR" = ⟨"$", "USD", 1.0⟩ := rfl

/-- The currency lines when the looked-up currency is named "USD": the
local-currency line is suppressed. -/
theorem currencyLines_of_name_USD (amount : ℚ) (code : String)
    (h : (lookupCurrency code).name = "USD") :
    currencyLines amount code = [usdLine amount, inrLine amount] := by
  unfold currencyLines
  rw [if_neg]
  rw [h]
  simp

/-- The currency lines when the looked-up currency is named "INR": the
local-currency line is suppressed. -/
theorem currencyLines_of_name_INR (amount : ℚ) (code : String)
    (h : (lookupCurrency code).name = "INR") :
    currencyLines amount code = [usdLine amount, inrLine amount] := by
  unfold currencyLines
  rw [if_neg]
  rw [h]
  simp

/-! ### Claims -/

/-- C1: for every country code supported by the currency table and every
salary amount, the local-currency conversion equals the amount multiplied by
the rate stored in the table for that code, and the INR line is present in
the rendered currency lines. -/
theorem C1_conversion_matches_table_and_inr_always_shown
    (code : String) (info : CurrencyInfo) (amount : ℚ)
    (h : COUNTRY_CURRENCIES.lookup code = some info) :
    predictedSalaryLocal amount code = amount * info.rate ∧
    inrLine amount ∈ currencyLines amount code := by
  constructor
  · unfold predictedSalaryLocal lookupCurrency
    rw [h]
    rfl
  · simp only [currencyLines]
    split
    · simp
    · simp

/-- Witness for C1 at code "DE" and amount 2. -/
theorem C1_witness :
    predictedSalaryLocal 2 "DE" = 2 * (⟨"€", "EUR", USD_TO_EUR_RATE⟩ : CurrencyInfo).rate ∧
    inrLine 2 ∈ currencyLines 2 "DE" :=
  C1_conversion_matches_table_and_inr_always_shown "DE" ⟨"€", "EUR", USD_TO_EUR_RATE⟩ 2 rfl

/-- C2: for country codes "US" and "IN" the separate local-currency line is
suppressed: the rendered currency lines are exactly the USD line and the INR
line, with no duplicate. -/
theorem C2_us_in_local_line_suppressed (amount : ℚ) :
    currencyLines amount "US" = [usdLine amount, inrLine amount] ∧
    currencyLines amount "IN" = [usdLine amount, inrLine amount] :=
  ⟨currencyLines_of_name_USD amount "US" (by rw [lookupCurrency_US]),
   currencyLines_of_name_INR amount "IN" (by rw [lookupCurrency_IN])⟩

/-- C3: for every country code absent from the currency table, the lookup
returns the default entry with symbol "$", name "USD" and rate 1.0, so the
conversion falls back to multiplying by 1.0. -/
theorem C3_unknown_code_defaults_to_usd (code : String)
    (h : COUNTRY_CURRENCIES.lookup code = none) :
    lookupCurrency code = ⟨"$", "USD", 1.0⟩ ∧
    ∀ amount : ℚ, predictedSalaryLocal amount code = amount * 1.0 := by
  have hl : lookupCurrency code = ⟨"$", "USD", 1.0⟩ := by
    unfold lookupCurrency
    rw [h]
    rfl
  refine ⟨hl, fun amount => ?_⟩
  unfold predictedSalaryLocal
  rw [hl]

/-- Witness for C3 at the unmapped code "ZZ" and amount 5. -/
theorem C3_witness :
    lookupCurrency "ZZ" = ⟨"$", "USD", 1.0⟩ ∧
    predictedSalaryLocal 5 "ZZ" = 5 * 1.0 :=
  ⟨(C3_unknown_code_defaults_to_usd "ZZ" rfl).1,
   (C3_unknown_code_defaults_to_usd "ZZ" rfl).2 5⟩

unseal Rat.mul Rat.add Rat.inv Rat.sub Rat.ofScientific in
/-- C4: the request {Senior, "Data Scientist", "IN", 50, 2024} with table
rate IN = 83.5 and a stub model predicting salary_usd = 100000.00 renders
exactly the line "$100,000.00 (USD)" and the line "₹8,350,000.00 (INR)",
with no additional local-currency line duplicating INR. -/
theorem C4_example_request_renders_usd_and_inr :
    lookupCurrency "IN" = ⟨"₹", "INR", 83.5⟩ ∧
    (handleSubmission (fun _ => [100000])
        ⟨"Jane Doe", "Senior", "Data Scientist", "IN", 50, 2024⟩).1 =
      SubmitOutcome.predicted "Jane Doe" 100000
        [⟨"$", "100,000.00", "USD"⟩, ⟨"₹", "8,350,000.00", "INR"⟩] := by
  decide

/-- C5: a submission with an empty employee name produces the validation
warning, the pipeline's predict operation is never called (empty effect
trace), and no prediction result is produced. -/
theorem C5_empty_name_warns_and_skips_predict
    (model_pipeline : Pipeline) (fs : FormState) (h : fs.employee_name = "") :
    handleSubmission model_pipeline fs =
      (SubmitOutcome.warning "Please enter the Employee Name.", []) := by
  unfold handleSubmission
  rw [if_pos h]

/-- Witness for C5 on a concrete form state with an empty name. -/
theorem C5_witness :
    handleSubmission (fun _ => [0]) ⟨"", "Senior", "Data Scientist", "IN", 50, 2024⟩ =
      (SubmitOutcome.warning "Please enter the Employee Name.", []) :=
  C5_empty_name_warns_and_skips_predict _ _ rfl

/-- C6: on a submission with a non-empty employee name the handler builds a
single-row feature table with columns experience_level, job_title,
company_location, remote_ratio, work_year in that order, calls the
pipeline's predict operation on it, and takes the first element of the
prediction as salary_usd. -/
theorem C6_nonempty_name_predicts_on_feature_row
    (model_pipeline : Pipeline) (fs : FormState) (h : ¬ fs.employee_name = "")
    (salary : ℚ) (rest : List ℚ)
    (hp : model_pipeline (inputData fs) = salary :: rest) :
    (inputData fs).columns =
      ["experience_level", "job_title", "company_location", "remote_ratio", "work_year"] ∧
    (inputData fs).rows =
      [[.str fs.experience_level, .str fs.job_title, .str fs.company_location,
        .int fs.remote_ratio_pct, .int fs.work_year]] ∧
    handleSubmission model_pipeline fs =
      (SubmitOutcome.predicted fs.employee_name salary
         (currencyLines salary fs.company_location),
       [Event.sleep 1, Event.predictCall (inputData fs)]) := by
  refine ⟨rfl, rfl, ?_⟩
  simp only [handleSubmission, if_neg h, hp, List.head?]

/-- Witness for C6 on a concrete form state and a stub pipeline. -/
theorem C6_witness :
    (inputData ⟨"Jane Doe", "Senior", "Data Scientist", "IN", 50, 2024⟩).columns =
      ["experience_level", "job_title", "company_location", "remote_ratio", "work_year"] ∧
    (inputData ⟨"Jane Doe", "Senior", "Data Scientist", "IN", 50, 2024⟩).rows =
      [[.str "Senior", .str "Data Scientist", .str "IN", .int 50, .int 2024]] ∧
    handleSubmission (fun _ => [100000]) ⟨"Jane Doe", "Senior", "Data Scientist", "IN", 50, 2024⟩ =
      (SubmitOutcome.predicted "Jane Doe" 100000 (currencyLines 100000 "IN"),
       [Event.sleep 1,
        Event.predictCall (inputData ⟨"Jane Doe", "Senior", "Data Scientist", "IN", 50, 2024⟩)]) :=
  C6_nonempty_name_predicts_on_feature_row (fun _ => [100000])
    ⟨"Jane Doe", "Senior", "Data Scientist", "IN", 50, 2024⟩ (by decide) 100000 [] rfl

/-- C7: if the model artifact is absent or deserialization raises any error
at startup, the serving component halts with a user-facing error message
(so no form is served and no prediction is attempted). -/
theorem C7_load_failure_halts (r : LoadResult)
    (h : r = LoadResult.fileNotFound ∨ ∃ e, r = LoadResult.loadError e) :
    ∃ msg, startup r = StartupOutcome.halted msg := by
  rcases h with h | ⟨e, h⟩ <;> subst h <;> exact ⟨_, rfl⟩

/-- Witness for C7 on the missing-file outcome. -/
theorem C7_witness : ∃ msg, startup LoadResult.fileNotFound = StartupOutcome.halted msg :=
  C7_load_failure_halts LoadResult.fileNotFound (Or.inl rfl)

unseal Rat.mul Rat.add Rat.inv Rat.sub Rat.ofScientific in
/-- C8 as stated is false on the code: on a successful submission the fixed
one-second delay is emitted before the prediction call, not after it. -/
theorem C8_counterexample :
    (handleSubmission (fun _ => [100000])
        ⟨"Jane Doe", "Senior", "Data Scientist", "IN", 50, 2024⟩).2 ≠
      [Event.predictCall (inputData ⟨"Jane Doe", "Senior", "Data Scientist", "IN", 50, 2024⟩),
       Event.sleep 1] := by
  decide

/-- C8 (amended): on each submission with a non-empty employee name the
handler performs exactly one fixed one-second artificial delay immediately
followed by exactly one synchronous prediction call (the delay occurs
before the prediction call, in that order). -/
theorem C8_amended_sleep_then_predict
    (model_pipeline : Pipeline) (fs : FormState) (h : ¬ fs.employee_name = "") :
    (handleSubmission model_pipeline fs).2 =
      [Event.sleep 1, Event.predictCall (inputData fs)] := by
  simp only [handleSubmission, if_neg h]
  cases (model_pipeline (inputData fs)).head? <;> rfl

/-- Witness for the amended C8 on a concrete submission. -/
theorem C8_amended_witness :
    (handleSubmission (fun _ => [100000])
        ⟨"Jane Doe", "Senior", "Data Scientist", "IN", 50, 2024⟩).2 =
      [Event.sleep 1,
       Event.predictCall (inputData ⟨"Jane Doe", "Senior", "Data Scientist", "IN", 50, 2024⟩)] :=
  C8_amended_sleep_then_predict (fun _ => [100000])
    ⟨"Jane Doe", "Senior", "Data Scientist", "IN", 50, 2024⟩ (by decide)

/-- C9: every country code offered by the company-location select widget
has an entry in COUNTRY_CURRENCIES, so the rate-1.0 default branch of the
lookup is unreachable for form-submitted values. -/
theorem C9_all_options_in_table :
    ∀ code ∈ company_location_options, (COUNTRY_CURRENCIES.lookup code).isSome = true := by
  intro code hc
  rw [company_location_options, List.mem_mergeSort] at hc
  exact (by decide :
    ∀ c ∈ company_location_options_raw, (COUNTRY_CURRENCIES.lookup c).isSome = true) code hc

/-- Witness for C9 at the code "US". -/
theorem C9_witness : (COUNTRY_CURRENCIES.lookup "US").isSome = true :=
  C9_all_options_in_table "US" (List.mem_mergeSort.mpr (by decide))

/-- C10: suppression is decided by the currency name, not the country code:
"PR" maps to currency USD at rate 1.0, so its local-currency line is
suppressed exactly as for "US" and the rendered currency lines for "PR"
equal those for "US" at the same salary. -/
theorem C10_pr_renders_like_us (amount : ℚ) :
    lookupCurrency "PR" = ⟨"$", "USD", 1.0⟩ ∧
    currencyLines amount "PR" = [usdLine amount, inrLine amount] ∧
    currencyLines amount "PR" = currencyLines amount "US" := by
  have hPR := currencyLines_of_name_USD amount "PR" (by rw [lookupCurrency_PR])
  have hUS := currencyLines_of_name_USD amount "US" (by rw [lookupCurrency_US])
  exact ⟨lookupCurrency_PR, hPR, by rw [hPR, hUS]⟩

end SalaryApp
